import Mathlib

/-!
Verification of `learningPath.py` (LearnPathShower).

The file embeds the pieces of the program that the specification talks
about: the Gemini completion client `call_gemini`, the learning-path
prompt template `base_prompt`, the Q&A routing of the AI Study Buddy,
the progress-tracker module extraction and ratio, the startup API-key
check, and the pomodoro timer display writes.

Python string operations (`str.split`, `str.strip`, `str.lower`,
`str.startswith`, `str.join`) are modelled by structural recursion over
the character list of a `String`, so that every definition evaluates
inside the kernel.
-/

/-- Python `s.split(sep)` for a one-character separator, on character
lists.  The result is never empty: splitting the empty list yields one
empty piece, exactly as `"".split(c)` yields `[""]` in Python. -/
def splitOnChar (c : Char) : List Char → List (List Char)
  | [] => [[]]
  | x :: xs =>
    if x = c then [] :: splitOnChar c xs
    else
      match splitOnChar c xs with
      | [] => [[x]]
      | y :: ys => (x :: y) :: ys

/-- Python `s.split('\n')`. -/
def pySplitLines (s : String) : List String :=
  (splitOnChar '\n' s.data).map String.mk

/-- The whitespace characters removed by Python `str.strip()` (ASCII part). -/
def pyIsSpace (c : Char) : Bool :=
  c = ' ' || c = '\t' || c = '\n' || c = '\r' || c = '\x0b' || c = '\x0c'

/-- Python `s.strip()`. -/
def pyStrip (s : String) : String :=
  String.mk (((s.data.dropWhile pyIsSpace).reverse.dropWhile pyIsSpace).reverse)

/-- Python `s.lower()` (ASCII letters). -/
def pyLower (s : String) : String :=
  String.mk (s.data.map Char.toLower)

/-- Python `s.startswith(p)`. -/
def pyStartsWith (s p : String) : Bool :=
  p.data.isPrefixOf s.data

/-- Python `sep.join(xs)`. -/
def pyJoin (sep : String) : List String → String
  | [] => ""
  | [x] => x
  | x :: y :: ys => x ++ sep ++ pyJoin sep (y :: ys)

/-- JSON values, for the response envelope of the Gemini endpoint. -/
inductive Json where
  | null : Json
  | bool (b : Bool) : Json
  | num (n : Int) : Json
  | str (s : String) : Json
  | arr (elems : List Json) : Json
  | obj (fields : List (String × Json)) : Json

/-- Python `j[k]` on a JSON object: `none` models the `KeyError`
raised when the key is missing (or the value is not a dict). -/
def Json.getKey : Json → String → Option Json
  | .obj fields, k => fields.lookup k
  | _, _ => none

/-- Python `j[i]` on a JSON array: `none` models the `IndexError`
raised when the index is out of range (or the value is not a list). -/
def Json.getIdx : Json → Nat → Option Json
  | .arr elems, i => elems.get? i
  | _, _ => none

/-- The sentinel string returned by `call_gemini` when the response
cannot be interpreted (learningPath.py line 22). -/
def sentinel : String :=
  "⚠️ Gemini API call failed or returned unexpected response."

/-- The extraction `response.json()["candidates"][0]["content"]["parts"][0]["text"]`
performed on line 20 of learningPath.py; `none` models the exception
raised when any step of the chain fails. -/
def extractText (j : Json) : Option Json :=
  (((((j.getKey "candidates").bind (fun v => v.getIdx 0)).bind
      (fun v => v.getKey "content")).bind
      (fun v => v.getKey "parts")).bind
      (fun v => v.getIdx 0)).bind
      (fun v => v.getKey "text")

/-- Outcome of the `requests.post` call on line 18 of learningPath.py.
`transportError` models an exception raised while issuing the POST
(connection failure, timeout); `response body` models a received HTTP
response, where `body = none` models a body that `response.json()`
cannot parse and `body = some j` a body parsing to the JSON value `j`.
The HTTP status code is not modelled separately because the source
never inspects it: only the parsed body is read. -/
inductive PostOutcome where
  | transportError : PostOutcome
  | response (body : Option Json) : PostOutcome

/-- `call_gemini` (learningPath.py lines 7-22), as a function of the
outcome of its single POST.  The `try`/`except` block spans only lines
19-22, i.e. the call `response.json()` and the subscript chain; the
`requests.post` on line 18 is outside it.  A result of `none` means an
exception propagates to the caller; `some v` means the value `v` is
returned (the extracted JSON value on success, the sentinel string
otherwise). -/
def call_gemini (outcome : PostOutcome) : Option Json :=
  match outcome with
  | .transportError => none
  | .response body =>
    match body.bind extractText with
    | some v => some v
    | none => some (.str sentinel)

/-- A response body of the shape
`{"candidates":[{"content":{"parts":[{"text": t}]}}]}`. -/
def envelope (t : String) : Json :=
  .obj [("candidates", .arr [.obj [("content",
    .obj [("parts", .arr [.obj [("text", .str t)]])])]])]

example : extractText (envelope "Hello") = some (.str "Hello") := rfl
example : extractText (.obj []) = none := rfl
example : call_gemini .transportError = none := rfl

/-- The six fixed prompt templates of the app. -/
inductive TemplateKind where
  | learningPath : TemplateKind
  | quote : TemplateKind
  | qa : TemplateKind
  | projectIdea : TemplateKind
  | quiz : TemplateKind
  | resourceSummary : TemplateKind
deriving DecidableEq

/-- The AI Study Buddy dispatch (learningPath.py line 128):
`if question.startswith("http")` selects the resource-summary template,
otherwise the Q&A template. -/
def routeQuestion (question : String) : TemplateKind :=
  if pyStartsWith question "http" then .resourceSummary else .qa

/-- The prompt built by the AI Study Buddy (lines 128-131). -/
def buddyPrompt (level topic question : String) : String :=
  if pyStartsWith question "http" then
    "Summarize the following resource and suggest quiz questions: " ++ question
  else
    "Explain for a " ++ level ++ " " ++ topic ++ " student: " ++ question

/-- C1 (counterexample): an exception raised by `requests.post` itself
(line 18) is outside the `try` block, so it propagates to the caller
instead of being normalized to the sentinel: the claim that *any*
failure, a transport error included, yields the sentinel is false. -/
theorem call_gemini_transport_error_escapes :
    call_gemini PostOutcome.transportError = none ∧
    call_gemini PostOutcome.transportError ≠ some (Json.str sentinel) := by
  refine ⟨rfl, ?_⟩
  intro h
  exact Option.noConfusion h

/-- C1 (amended): once an HTTP response was received, every failure to
interpret it — unparsable body, empty or malformed JSON envelope, empty
candidate list, missing fields — is caught by the `try`/`except` and
normalized to the sentinel string; no exception propagates from that
stage. -/
theorem call_gemini_response_failure_sentinel (body : Option Json)
    (h : body.bind extractText = none) :
    call_gemini (PostOutcome.response body) = some (Json.str sentinel) ∧
    call_gemini (PostOutcome.response body) ≠ none := by
  constructor
  · simp [call_gemini, h]
  · simp [call_gemini, h]

/-- C1 (witness): the empty JSON envelope is normalized to the sentinel. -/
theorem call_gemini_response_failure_sentinel_witness :
    call_gemini (PostOutcome.response (some (Json.obj []))) = some (Json.str sentinel) ∧
    call_gemini (PostOutcome.response (some (Json.obj []))) ≠ none :=
  call_gemini_response_failure_sentinel (some (Json.obj [])) rfl

/-- C2: for every body of the shape
`{"candidates":[{"content":{"parts":[{"text": t}]}}]}`, `call_gemini`
returns exactly the first candidate's first content part `t`, and in
particular `"Hello"` for `t = "Hello"`; that result is distinct from
the failure sentinel. -/
theorem call_gemini_extracts_first_text (t : String) :
    call_gemini (PostOutcome.response (some (envelope t))) = some (Json.str t) ∧
    call_gemini (PostOutcome.response (some (envelope "Hello"))) = some (Json.str "Hello") ∧
    Json.str "Hello" ≠ Json.str sentinel := by
  refine ⟨rfl, rfl, ?_⟩
  intro h
  injection h with h2
  exact absurd h2 (by decide)

/-- C3: the Study Buddy routes a free-text question to the
resource-summary template exactly when it begins with the literal
four-character string "http", and to the Q&A template otherwise; the
input "http" alone routes to resource summary, "How do I start?" to
Q&A, and an http-question's prompt is the summary template. -/
theorem routeQuestion_http_dispatch (q level topic : String) :
    (routeQuestion q = TemplateKind.resourceSummary ↔ pyStartsWith q "http" = true) ∧
    (routeQuestion q = TemplateKind.qa ↔ pyStartsWith q "http" = false) ∧
    (pyStartsWith q "http" = true →
      buddyPrompt level topic q =
        "Summarize the following resource and suggest quiz questions: " ++ q) ∧
    routeQuestion "http" = TemplateKind.resourceSummary ∧
    routeQuestion "How do I start?" = TemplateKind.qa := by
  refine ⟨?_, ?_, ?_, rfl, rfl⟩ <;>
    cases h : pyStartsWith q "http" <;> simp [routeQuestion, buddyPrompt, h]

/-- C3 (witness): a URL-shaped question gets the summary prompt. -/
theorem routeQuestion_http_dispatch_witness :
    buddyPrompt "Beginner" "Data Science" "https://a.io" =
      "Summarize the following resource and suggest quiz questions: " ++ "https://a.io" :=
  (routeQuestion_http_dispatch "https://a.io" "Beginner" "Data Science").2.2.1 rfl

/-- Substring containment: `x` occurs verbatim inside `s`. -/
def containsStr (s x : String) : Prop := ∃ a b, s = a ++ x ++ b

lemma containsStr_self (x : String) : containsStr x x := ⟨"", "", by simp⟩

lemma containsStr_appL {s x : String} (t : String) (h : containsStr s x) :
    containsStr (s ++ t) x := by
  obtain ⟨a, b, rfl⟩ := h
  exact ⟨a, b ++ t, by simp [String.append_assoc]⟩

lemma containsStr_appR {s x : String} (t : String) (h : containsStr s x) :
    containsStr (t ++ s) x := by
  obtain ⟨a, b, rfl⟩ := h
  exact ⟨t ++ a, b, by simp [String.append_assoc]⟩

/-- The topics offered by the sidebar selectbox (line 54). -/
inductive Topic where
  | dataScience : Topic
  | uiUx : Topic
  | webDevelopment : Topic
  | cybersecurity : Topic
  | aiMachineLearning : Topic
deriving DecidableEq

def Topic.text : Topic → String
  | .dataScience => "Data Science"
  | .uiUx => "UI/UX"
  | .webDevelopment => "Web Development"
  | .cybersecurity => "Cybersecurity"
  | .aiMachineLearning => "AI/Machine Learning"

/-- The skill levels offered by the sidebar radio (line 55). -/
inductive Level where
  | beginner : Level
  | intermediate : Level
  | advanced : Level
deriving DecidableEq

def Level.text : Level → String
  | .beginner => "Beginner"
  | .intermediate => "Intermediate"
  | .advanced => "Advanced"

/-- The learning styles offered by the sidebar multiselect (line 57). -/
inductive Style where
  | videos : Style
  | articles : Style
  | handsOnProjects : Style
  | quizzes : Style
  | flashcards : Style
deriving DecidableEq

def Style.text : Style → String
  | .videos => "Videos"
  | .articles => "Articles"
  | .handsOnProjects => "Hands-on Projects"
  | .quizzes => "Quizzes"
  | .flashcards => "Flashcards"

/-- The learning-style clause of the prompt (line 95): the comma-join
of the selections when any are chosen, the default "any" when the
multiselect list is empty (empty list is falsy in Python). -/
def styleText (style : List String) : String :=
  if style = [] then "any" else pyJoin ", " style

/-- The goal clause of the prompt (line 96): the goal verbatim when it
is non-empty, the default "Just to learn" otherwise (empty string is
falsy in Python). -/
def goalText (goal : String) : String :=
  if goal = "" then "Just to learn" else goal

/-- `base_prompt` (lines 93-100): the learning-path prompt template,
an f-string interpolating topic, level, hours, the style clause and
the goal clause. -/
def base_prompt (topic level : String) (hours : Nat) (style : List String)
    (goal : String) : String :=
  "You are an expert mentor. Create a detailed, step-by-step '" ++ topic ++
  "' learning path for a " ++ level ++
  " learner who can study " ++ toString hours ++
  " hrs/week. Preferred learning style(s): " ++ styleText style ++
  ". Goal: " ++ goalText goal ++
  ".\nFor each step/module, provide: 1) Name, 2) What to learn, 3) Curated resources (with 1-2 links), 4) Creative project ideas, 5) A checkpoint quiz (3 questions), and 6) Estimated time in weeks.Finish with an overall project idea and a motivational message."

/-- C4: for every valid profile (topic and level from their enums,
hours between 1 and 40, any style selection and goal), the rendered
learning-path prompt is non-empty and contains the topic, level and
hours values verbatim. -/
theorem base_prompt_contains_profile (t : Topic) (l : Level) (hours : Nat)
    (style : List Style) (goal : String) (h1 : 1 ≤ hours) (h2 : hours ≤ 40) :
    base_prompt t.text l.text hours (style.map Style.text) goal ≠ "" ∧
    containsStr (base_prompt t.text l.text hours (style.map Style.text) goal) t.text ∧
    containsStr (base_prompt t.text l.text hours (style.map Style.text) goal) l.text ∧
    containsStr (base_prompt t.text l.text hours (style.map Style.text) goal)
      (toString hours) := by
  refine ⟨?_, ?_, ?_, ?_⟩
  · intro h
    have hlen := congrArg String.length h
    simp only [base_prompt, String.length_append] at hlen
    have hpos :
        0 < ("You are an expert mentor. Create a detailed, step-by-step '" : String).length := by
      decide
    have h0 : ("" : String).length = 0 := rfl
    omega
  · unfold base_prompt
    exact containsStr_appL _ (containsStr_appL _ (containsStr_appL _ (containsStr_appL _
      (containsStr_appL _ (containsStr_appL _ (containsStr_appL _ (containsStr_appL _
      (containsStr_appL _ (containsStr_appR _ (containsStr_self _))))))))))
  · unfold base_prompt
    exact containsStr_appL _ (containsStr_appL _ (containsStr_appL _ (containsStr_appL _
      (containsStr_appL _ (containsStr_appL _ (containsStr_appL _
      (containsStr_appR _ (containsStr_self _))))))))
  · unfold base_prompt
    exact containsStr_appL _ (containsStr_appL _ (containsStr_appL _ (containsStr_appL _
      (containsStr_appL _ (containsStr_appR _ (containsStr_self _))))))

/-- C4 (witness): a concrete valid profile. -/
theorem base_prompt_contains_profile_witness :
    base_prompt Topic.dataScience.text Level.beginner.text 5
      [Style.videos.text] "Get a job" ≠ "" ∧
    containsStr (base_prompt Topic.dataScience.text Level.beginner.text 5
      [Style.videos.text] "Get a job") Topic.dataScience.text ∧
    containsStr (base_prompt Topic.dataScience.text Level.beginner.text 5
      [Style.videos.text] "Get a job") Level.beginner.text ∧
    containsStr (base_prompt Topic.dataScience.text Level.beginner.text 5
      [Style.videos.text] "Get a job") (toString 5) := by
  have h := base_prompt_contains_profile Topic.dataScience Level.beginner 5
    [Style.videos] "Get a job" (by decide) (by decide)
  simpa using h

/-- C7: an empty style selection renders as the default "any" and an
empty goal as "Just to learn"; a non-empty selection renders as the
comma-join of the selections and a non-empty goal verbatim; the two
default phrases appear verbatim in the prompt built with empty
optional fields. -/
theorem base_prompt_optional_defaults (topic level : String) (hours : Nat)
    (style : List String) (goal : String) (hs : style ≠ []) (hg : goal ≠ "") :
    styleText [] = "any" ∧
    goalText "" = "Just to learn" ∧
    styleText style = pyJoin ", " style ∧
    goalText goal = goal ∧
    containsStr (base_prompt topic level hours [] goal) "any" ∧
    containsStr (base_prompt topic level hours style "") "Just to learn" := by
  refine ⟨rfl, rfl, ?_, ?_, ?_, ?_⟩
  · simp [styleText, hs]
  · simp [goalText, hg]
  · unfold base_prompt
    rw [show styleText [] = "any" from rfl]
    exact containsStr_appL _ (containsStr_appL _ (containsStr_appL _
      (containsStr_appR _ (containsStr_self _))))
  · unfold base_prompt
    rw [show goalText "" = "Just to learn" from rfl]
    exact containsStr_appL _ (containsStr_appR _ (containsStr_self _))

/-- C7 (witness): concrete non-empty style and goal. -/
theorem base_prompt_optional_defaults_witness :
    styleText ["Videos", "Quizzes"] = pyJoin ", " ["Videos", "Quizzes"] ∧
    goalText "Get a job" = "Get a job" :=
  ⟨(base_prompt_optional_defaults "Data Science" "Beginner" 5
      ["Videos", "Quizzes"] "Get a job" (by decide) (by decide)).2.2.1,
   (base_prompt_optional_defaults "Data Science" "Beginner" 5
      ["Videos", "Quizzes"] "Get a job" (by decide) (by decide)).2.2.2.1⟩

/-- Whether a line of the stored learning-path text is kept as a
module line (line 113): its stripped, lowercased form starts with
"step" or with "module". -/
def isModuleLine (line : String) : Bool :=
  pyStartsWith (pyLower (pyStrip line)) "step" ||
  pyStartsWith (pyLower (pyStrip line)) "module"

/-- The placeholder module names substituted when no line matches
(line 115). -/
def placeholderModules : List String :=
  (List.range 5).map (fun i => "Module " ++ toString (i + 1))

/-- The module list of the progress tracker (lines 113-115): the
matching lines of the stored text, or the five placeholders when none
match. -/
def modulesOf (learning_path : String) : List String :=
  if (pySplitLines learning_path).filter isModuleLine = [] then placeholderModules
  else (pySplitLines learning_path).filter isModuleLine

/-- C5: the module list keeps exactly the lines whose stripped,
lowercased form starts with "step" or "module"; a text with such a
"Step 1" line, a "Module 2" line and three unrelated lines yields
exactly those 2 modules; a text with no matching line yields exactly
the placeholders "Module 1" .. "Module 5". -/
theorem modulesOf_filter_or_placeholders (text : String) :
    ((pySplitLines text).filter isModuleLine ≠ [] →
      modulesOf text = (pySplitLines text).filter isModuleLine) ∧
    ((pySplitLines text).filter isModuleLine = [] →
      modulesOf text = ["Module 1", "Module 2", "Module 3", "Module 4", "Module 5"]) ∧
    modulesOf "Step 1: Basics\nRead the notes\nModule 2: Practice\nHave fun\nDone" =
      ["Step 1: Basics", "Module 2: Practice"] ∧
    (modulesOf "Step 1: Basics\nRead the notes\nModule 2: Practice\nHave fun\nDone").length
      = 2 := by
  refine ⟨?_, ?_, by decide, by decide⟩
  · intro h
    simp [modulesOf, h]
  · intro h
    simp [modulesOf, h]
    decide

/-- C5 (witness): one text with no matching line, one with a matching
line. -/
theorem modulesOf_filter_or_placeholders_witness :
    modulesOf "nothing to see\nhere" =
      ["Module 1", "Module 2", "Module 3", "Module 4", "Module 5"] ∧
    modulesOf "Step 1: go" = ["Step 1: go"] :=
  ⟨(modulesOf_filter_or_placeholders "nothing to see\nhere").2.1 (by decide),
   (modulesOf_filter_or_placeholders "Step 1: go").1 (by decide)⟩

/-- The progress value (line 117):
`len(completed) / len(modules) if modules else 0`, as an exact
rational. -/
def progress (modules completed : List String) : ℚ :=
  if modules = [] then 0 else (completed.length : ℚ) / (modules.length : ℚ)

/-- Whether the congratulations banner is shown (lines 120-121): the
test `progress == 1`. -/
def congratsShown (modules completed : List String) : Bool :=
  decide (progress modules completed = 1)

/-- C6: for a non-empty, duplicate-free module list and a completed
selection drawn from it, the ratio equals exactly 1 precisely when
every module is completed, and the congratulations banner is shown
precisely when the ratio equals 1. -/
theorem progress_one_iff_all_completed (modules completed : List String)
    (hne : modules ≠ []) (hnd : modules.Nodup)
    (hsub : completed.Sublist modules) :
    (progress modules completed = 1 ↔ ∀ m ∈ modules, m ∈ completed) ∧
    (congratsShown modules completed = true ↔
      progress modules completed = 1) := by
  have hmpos : 0 < modules.length := List.length_pos.mpr hne
  have hmQ : ((modules.length : ℚ)) ≠ 0 := by
    exact_mod_cast Nat.pos_iff_ne_zero.mp hmpos
  constructor
  · rw [progress, if_neg hne, div_eq_one_iff_eq hmQ]
    constructor
    · intro h
      have hlen : completed.length = modules.length := by exact_mod_cast h
      have := hsub.eq_of_length hlen
      subst this
      exact fun m hm => hm
    · intro h
      have hsup : modules.Subperm completed := List.subperm_of_subset hnd h
      have h1 : modules.length ≤ completed.length := hsup.length_le
      have h2 : completed.length ≤ modules.length := hsub.length_le
      have : completed.length = modules.length := le_antisymm h2 h1
      exact_mod_cast this
  · rw [congratsShown]
    exact decide_eq_true_iff

/-- C6 (witness): both modules completed gives ratio 1 and the
banner. -/
theorem progress_one_iff_all_completed_witness :
    progress ["Module 1", "Module 2"] ["Module 1", "Module 2"] = 1 ∧
    congratsShown ["Module 1", "Module 2"] ["Module 1", "Module 2"] = true := by
  have h := progress_one_iff_all_completed ["Module 1", "Module 2"]
    ["Module 1", "Module 2"] (by decide) (by decide) (List.Sublist.refl _)
  have hp : progress ["Module 1", "Module 2"] ["Module 1", "Module 2"] = 1 :=
    h.1.mpr (by intro m hm; exact hm)
  exact ⟨hp, h.2.mpr hp⟩

/-- C10: the module list extracted from any stored text is non-empty
(the placeholder fallback guarantees it), so the progress computation
never divides by zero, and for any completed selection drawn from the
module list the progress value lies in the closed interval from 0
to 1. -/
theorem progress_well_defined_and_bounded (text : String)
    (completed : List String) (hsub : completed.Sublist (modulesOf text)) :
    modulesOf text ≠ [] ∧
    0 ≤ progress (modulesOf text) completed ∧
    progress (modulesOf text) completed ≤ 1 := by
  have hne : modulesOf text ≠ [] := by
    rw [modulesOf]
    split
    · decide
    · assumption
  refine ⟨hne, ?_, ?_⟩
  · rw [progress, if_neg hne]
    positivity
  · rw [progress, if_neg hne]
    have hmpos : (0 : ℚ) < (modulesOf text).length := by
      exact_mod_cast List.length_pos.mpr hne
    rw [div_le_one hmpos]
    exact_mod_cast hsub.length_le

/-- C10 (witness): the empty selection over the modules of the empty
text. -/
theorem progress_well_defined_and_bounded_witness :
    modulesOf "" ≠ [] ∧
    0 ≤ progress (modulesOf "") [] ∧
    progress (modulesOf "") [] ≤ 1 :=
  progress_well_defined_and_bounded "" [] (List.nil_sublist _)

/-- Outcome of the startup credential check (lines 45-48): `halted`
models `st.error` followed by `st.stop()`, which ends the script run
before any further widget is drawn, so no prompt is built and no call
to `call_gemini` occurs in that run; `running` carries the accepted
key into the rest of the script. -/
inductive StartupOutcome where
  | halted (diagnostic : String) : StartupOutcome
  | running (api_key : String) : StartupOutcome

/-- The diagnostic emitted on line 47. -/
def apiKeyDiagnostic : String :=
  "Gemini API key not set! Please add it to your .streamlit/secrets.toml file as GEMINI_API_KEY = \"xxx\""

/-- Lines 45-48: `st.secrets.get("GEMINI_API_KEY", "")` (missing key
defaults to the empty string) followed by the falsy check
`if not api_key`. -/
def startup (secrets : List (String × String)) : StartupOutcome :=
  if (secrets.lookup "GEMINI_API_KEY").getD "" = "" then
    .halted apiKeyDiagnostic
  else
    .running ((secrets.lookup "GEMINI_API_KEY").getD "")

/-- C8: when the stored credential is missing or empty, startup halts
with the diagnostic — which names the place to put the key,
`.streamlit/secrets.toml` — and the run never reaches the `running`
state in which prompts are built and remote calls made. -/
theorem startup_halts_without_key (secrets : List (String × String))
    (h : secrets.lookup "GEMINI_API_KEY" = none ∨
      secrets.lookup "GEMINI_API_KEY" = some "") :
    startup secrets = .halted apiKeyDiagnostic ∧
    containsStr apiKeyDiagnostic ".streamlit/secrets.toml" ∧
    ∀ k, startup secrets ≠ .running k := by
  have hempty : (secrets.lookup "GEMINI_API_KEY").getD "" = "" := by
    rcases h with h | h <;> simp [h]
  refine ⟨by simp [startup, hempty], ?_, ?_⟩
  · exact ⟨"Gemini API key not set! Please add it to your ",
      " file as GEMINI_API_KEY = \"xxx\"", rfl⟩
  · intro k hk
    rw [startup, if_pos hempty] at hk
    exact StartupOutcome.noConfusion hk

/-- C8 (witness): an empty secrets store halts startup. -/
theorem startup_halts_without_key_witness :
    startup [] = .halted apiKeyDiagnostic ∧
    containsStr apiKeyDiagnostic ".streamlit/secrets.toml" ∧
    ∀ k, startup [] ≠ .running k :=
  startup_halts_without_key [] (Or.inl rfl)

/-- Python two-digit zero-padded decimal formatting of `n`, as used on
line 31 for minutes and seconds. -/
def format02 (n : Nat) : String :=
  if n < 10 then "0" ++ toString n else toString n

/-- The string written to `timer_display` by one loop iteration of
`pomodoro_timer` (lines 30-32): minutes and seconds of the remaining
count `i`, each zero-padded to two digits, joined by a colon. -/
def timeformat (i : Nat) : String :=
  format02 (i / 60) ++ ":" ++ format02 (i % 60)

/-- The initial value of `timer_display` (line 73). -/
def timerInit : String := "25:00"

/-- The values written to `timer_display` by a run of
`pomodoro_timer duration` (lines 25-35): the loop writes
`timeformat i` for `i` counting down from `duration*60` to 1 (a stop
request can skip a suffix of these, never add a value), and the write
of "00:00" after the loop (line 35) always happens. -/
def loopWrites (duration : Nat) : List String :=
  ((List.range' 1 (duration * 60)).reverse.map timeformat) ++ ["00:00"]

/-- A five-character string of two digits, a colon, and two digits. -/
def isMMSS (s : String) : Bool :=
  match s.data with
  | [a, b, c, d, e] => a.isDigit && b.isDigit && (c == ':') && d.isDigit && e.isDigit
  | _ => false

/-- A two-character string of two digits. -/
def isTwoDigits (s : String) : Bool :=
  match s.data with
  | [a, b] => a.isDigit && b.isDigit
  | _ => false

lemma format02_twoDigits : ∀ n < 100, isTwoDigits (format02 n) = true := by decide

lemma isMMSS_of_parts (x y : String) (hx : isTwoDigits x = true)
    (hy : isTwoDigits y = true) : isMMSS (x ++ ":" ++ y) = true := by
  rcases x with ⟨xs⟩
  rcases y with ⟨ys⟩
  rcases xs with _ | ⟨a, _ | ⟨b, _ | ⟨c, rest⟩⟩⟩ <;> simp [isTwoDigits] at hx
  rcases ys with _ | ⟨d, _ | ⟨e, _ | ⟨f, rest⟩⟩⟩ <;> simp [isTwoDigits] at hy
  show isMMSS (String.mk [a, b, ':', d, e]) = true
  simp [isMMSS, hx.1, hx.2, hy.1, hy.2]

lemma timeformat_isMMSS (i : Nat) (h : i ≤ 5940) :
    isMMSS (timeformat i) = true := by
  have h1 : i / 60 < 100 := by omega
  have h2 : i % 60 < 100 := by omega
  exact isMMSS_of_parts _ _ (format02_twoDigits _ h1) (format02_twoDigits _ h2)

/-- C9: every value ever held by `timer_display` — its initial value,
every in-loop write of the 25-minute pomodoro countdown, and the final
reset to "00:00" — is a two-digit-minutes, colon, two-digit-seconds
string. -/
theorem timer_display_always_MMSS (s : String)
    (hs : s ∈ timerInit :: loopWrites 25) : isMMSS s = true := by
  rcases List.mem_cons.mp hs with h | h
  · subst h
    decide
  · rw [loopWrites] at h
    rcases List.mem_append.mp h with h | h
    · obtain ⟨i, hi, rfl⟩ := List.mem_map.mp h
      rw [List.mem_reverse] at hi
      have := List.mem_range'_1.mp hi
      exact timeformat_isMMSS i (by omega)
    · rw [List.mem_singleton] at h
      subst h
      decide

/-- C9 (witness): the initial value, a mid-countdown value and the
final reset are all well-formed. -/
theorem timer_display_always_MMSS_witness :
    isMMSS timerInit = true ∧
    isMMSS (timeformat 90) = true ∧
    isMMSS "00:00" = true :=
  ⟨timer_display_always_MMSS timerInit (List.mem_cons_self _ _),
   timer_display_always_MMSS (timeformat 90) (by
     rw [loopWrites]
     refine List.mem_cons_of_mem _ (List.mem_append_left _ ?_)
     exact List.mem_map.mpr ⟨90, by rw [List.mem_reverse]; exact List.mem_range'_1.mpr (by omega), rfl⟩),
   timer_display_always_MMSS "00:00" (by
     rw [loopWrites]
     exact List.mem_cons_of_mem _ (List.mem_append_right _ (List.mem_singleton.mpr rfl)))⟩
